import Mathlib

/-
Verification development for the FocalOfAttention task-tracking backend.

The Python service layer is shallowly embedded: the persistent store is an
explicit record of user and task rows, each repository or service method is a
Lean function that passes the store explicitly, and each Python exception is
a constructor of one inductive error type.  External collaborators (the
passlib bcrypt context and the jose JWT library) are modelled abstractly but
executably, preserving the structure the services rely on.
-/

set_option linter.unusedVariables false

/-- Models the exception taxonomy of backend.libs.exceptions together with the
concrete exception classes of the user, task and security modules.  The
backend.libs package is imported by the code but is not part of the sources;
its base classes (NotFound, AlreadyExists, AccessForbidden, PaginationError)
are plain marker classes modelled from the spec taxonomy in section 7.  The
userNotFound constructor records the positional arguments given at the raise
site, because the two raise sites in the auth flow differ in that respect. -/
inductive PyExc where
  | taskNotFound
  | taskAccessForbidden
  | userNotFound (args : List String)
  | userAlreadyExists
  | paginationError
  | typeError (msg : String)
  | attributeError (msg : String)
  | argumentError (msg : String)
  | integrityError
  | validationError (loc : String)
  | multipleResultsFound
  deriving DecidableEq, Repr

/-- Maps an exception value to the name of its Python class. -/
def PyExc.typeName : PyExc → String
  | .taskNotFound => "TaskNotFound"
  | .taskAccessForbidden => "TaskAccessForbidden"
  | .userNotFound _ => "UserNotFound"
  | .userAlreadyExists => "UserAlreadyExists"
  | .paginationError => "PaginationError"
  | .typeError _ => "TypeError"
  | .attributeError _ => "AttributeError"
  | .argumentError _ => "ArgumentError"
  | .integrityError => "IntegrityError"
  | .validationError _ => "ValidationError"
  | .multipleResultsFound => "MultipleResultsFound"

/-- Embeds backend.task.enums.TaskStatus, a str enum with three members. -/
inductive TaskStatus where
  | PENDING
  | IN_PROGRESS
  | DONE
  deriving DecidableEq, Repr

/-- The str value of each TaskStatus member, as in the Python enum body. -/
def TaskStatus.value : TaskStatus → String
  | .PENDING => "pending"
  | .IN_PROGRESS => "in_progress"
  | .DONE => "done"

/-- Python truthiness of a TaskStatus member: the enum inherits from str, so
a member is truthy exactly when its string value is nonempty. -/
def TaskStatus.py_truthy (s : TaskStatus) : Bool := s.value != ""

/-- Embeds backend.task.models.task.TaskModel: one row of the tasks table.
The title and status columns are NOT NULL; description is nullable. -/
structure TaskModel where
  id : Int
  title : String
  description : Option String
  status : TaskStatus
  owner_id : Int
  deriving DecidableEq, Repr

/-- Embeds backend.task.dto.TaskDTO. -/
structure TaskDTO where
  id : Int
  title : String
  description : Option String
  status : TaskStatus
  owner_id : Int
  deriving DecidableEq, Repr

/-- Embeds backend.task.dto.TaskUpdate: every field is optional; a field left
at None stands for a field absent from the request payload. -/
structure TaskUpdate where
  title : Option String
  description : Option String
  status : Option TaskStatus
  deriving DecidableEq, Repr

/-- Embeds backend.user.models.user.UserModel: one row of the users table.
username and email carry unique constraints. -/
structure UserModel where
  id : Int
  username : String
  email : String
  hashed_password : String
  deriving DecidableEq, Repr

/-- The column names of the users table: the id primary key from the base
model plus the three mapped columns of UserModel.  There is no password
column; only hashed_password exists. -/
def UserModel.columns : List String := ["id", "username", "email", "hashed_password"]

/-- Embeds backend.user.dto.UserDTO. -/
structure UserDTO where
  id : Int
  username : String
  email : String
  hashed_password : String
  deriving DecidableEq, Repr

/-- Embeds backend.user.entity.UserEntity. -/
structure UserEntity where
  id : Option Int
  username : String
  email : String
  hashed_password : String
  deriving DecidableEq, Repr

/-- Embeds backend.user.dto.UserCreate. -/
structure UserCreate where
  username : String
  email : String
  password : String
  deriving DecidableEq, Repr

/-- Embeds backend.user.dto.UserUpdate: all three fields optional. -/
structure UserUpdate where
  username : Option String
  email : Option String
  password : Option String
  deriving DecidableEq, Repr

/-- Embeds backend.user.dto.UserFindDTO. -/
structure UserFindDTO where
  id : Option Int
  username : Option String
  email : Option String
  deriving DecidableEq, Repr

/-- Embeds backend.auth.dto.RegistrationDTO. -/
structure RegistrationDTO where
  username : String
  email : String
  password : String
  deriving DecidableEq, Repr

/-- Embeds backend.auth.dto.LoginDTO. -/
structure LoginDTO where
  username : String
  password : String
  deriving DecidableEq, Repr

/-- The persistent store: the users and tasks tables plus the autoincrement
counter the store uses to assign new user primary keys. -/
structure DB where
  users : List UserModel
  tasks : List TaskModel
  next_user_id : Int
  deriving DecidableEq, Repr

namespace PasswordService

/-- Models the external passlib CryptContext digest of a password.  The real
digest is a bcrypt hash with an embedded per-call salt; no claim under proof
depends on the salt, so the digest is modelled as an injective tagplus
password encoding, which preserves the property the services use: verify
succeeds exactly on the hashed password. -/
def get_password_hash (password : String) : String := "$2b$12$" ++ password

/-- Models pwd_context.verify: true exactly when the digest is the digest of
the plain password. -/
def verify_password (plain_password hashed_password : String) : Bool :=
  hashed_password == get_password_hash plain_password

end PasswordService

/-- A Python value appearing inside a JWT claims dict. -/
inductive PyVal where
  | str (s : String)
  | int (i : Int)
  | pynone
  deriving DecidableEq, Repr

/-- Models an encoded JWT string.  A well-formed signed token is determined
by its claims dict, signing key and algorithm; every other string is a
structurally malformed token. -/
inductive Token where
  | signedTok (claims : List (String × PyVal)) (key : String) (alg : String)
  | malformedTok (raw : String)
  deriving DecidableEq, Repr

/-- Looks a key up in a claims dict. -/
def lookupClaim (claims : List (String × PyVal)) (k : String) : Option PyVal :=
  (claims.find? (fun kv => kv.1 == k)).map (fun kv => kv.2)

/-- Models dict.update with a single key: removes any existing binding of the
key and binds it to the new value. -/
def dictUpdate (d : List (String × PyVal)) (k : String) (v : PyVal) :
    List (String × PyVal) :=
  d.filter (fun kv => kv.1 != k) ++ [(k, v)]

namespace auth_config

/-- Models the SECRET_KEY value loaded from the environment by AuthConfig. -/
def secret_key : String := "SECRET_KEY value from the environment"

/-- Models the HASH_ALGORITHM setting; its default is HS256. -/
def algorithm : String := "HS256"

/-- Default access token lifetime, in minutes. -/
def access_token_expire_minutes : Int := 30

/-- Default refresh token lifetime, in days. -/
def refresh_token_expire_days : Int := 7

end auth_config

/-- The failure modes of jose jwt.decode; all are subclasses of JWTError. -/
inductive JWTError where
  | invalidSignature
  | malformedToken
  | expiredSignature
  | claimsError
  deriving DecidableEq, Repr

namespace jwt

/-- Models jose jwt.encode: signing a claims dict with a key and algorithm. -/
def encode (claims : List (String × PyVal)) (key : String) (alg : String) : Token :=
  Token.signedTok claims key alg

/-- Models jose jwt.decode at time now: a malformed string fails to parse; a
signed token verifies only under the signing key and an accepted algorithm;
an exp claim, when present, must be numeric and strictly in the future. -/
def decode (t : Token) (key : String) (algs : List String) (now : Int) :
    Except JWTError (List (String × PyVal)) :=
  match t with
  | .malformedTok _ => .error .malformedToken
  | .signedTok claims k a =>
    if !(algs.contains a) then .error .invalidSignature
    else if k != key then .error .invalidSignature
    else
      match lookupClaim claims "exp" with
      | some (.int e) => if e ≤ now then .error .expiredSignature else .ok claims
      | some _ => .error .claimsError
      | none => .ok claims

end jwt

/-- Embeds backend.security.dto.TokenPayloadDTO: sub is str or None. -/
structure TokenPayloadDTO where
  sub : Option String
  deriving DecidableEq, Repr

/-- Models pydantic validation of TokenPayloadDTO against a decoded claims
dict: extra keys are ignored; an absent or None sub defaults to None; a sub
of any non-str type raises ValidationError. -/
def TokenPayloadDTO.from_claims (claims : List (String × PyVal)) :
    Except PyExc TokenPayloadDTO :=
  match lookupClaim claims "sub" with
  | none => .ok ⟨none⟩
  | some .pynone => .ok ⟨none⟩
  | some (.str s) => .ok ⟨some s⟩
  | some (.int _) => .error (.validationError "sub")

/-- Embeds backend.security.dto.TokenDTO. -/
structure TokenDTO where
  access_token : Token
  refresh_token : Token
  token_type : String
  deriving DecidableEq, Repr

namespace TokenService

/-- Embeds TokenService.create_access_token at time now: copies the data
dict, binds exp to now plus the access lifetime, and signs with the secret
key.  Lifetimes are kept in seconds, so minutes scale by 60. -/
def create_access_token (data : List (String × PyVal)) (now : Int) : Token :=
  jwt.encode
    (dictUpdate data "exp" (.int (now + 60 * auth_config.access_token_expire_minutes)))
    auth_config.secret_key auth_config.algorithm

/-- Embeds TokenService.create_refresh_token at time now; days scale by
86400. -/
def create_refresh_token (data : List (String × PyVal)) (now : Int) : Token :=
  jwt.encode
    (dictUpdate data "exp" (.int (now + 86400 * auth_config.refresh_token_expire_days)))
    auth_config.secret_key auth_config.algorithm

/-- Embeds TokenService.verify_token: decodes with the secret key and the
configured algorithm; any JWTError is caught and turned into None; the
decoded claims are then validated into a TokenPayloadDTO, whose pydantic
ValidationError is not caught by the except clause. -/
def verify_token (t : Token) (now : Int) : Except PyExc (Option TokenPayloadDTO) :=
  match jwt.decode t auth_config.secret_key [auth_config.algorithm] now with
  | .error _ => .ok none
  | .ok claims =>
    match TokenPayloadDTO.from_claims claims with
    | .ok p => .ok (some p)
    | .error e => .error e

end TokenService

namespace TaskRepository

/-- Embeds TaskRepository._get_dto. -/
def _get_dto (r : TaskModel) : TaskDTO :=
  { id := r.id, title := r.title, description := r.description,
    status := r.status, owner_id := r.owner_id }

/-- Embeds session.get(TaskModel, task_id): primary key lookup. -/
def find_by_id (db : DB) (task_id : Int) : Option TaskModel :=
  db.tasks.find? (fun r => r.id == task_id)

/-- Embeds TaskRepository.get_by_id: raises TaskNotFound when the primary
key lookup returns no row. -/
def get_by_id (db : DB) (task_id : Int) : Except PyExc TaskDTO :=
  match find_by_id db task_id with
  | none => .error .taskNotFound
  | some r => .ok (_get_dto r)

/-- Embeds TaskRepository.get_all_for_user: selects the rows whose owner_id
matches, and narrows by status when the status argument is truthy (the code
guards with a truthiness test on the optional enum value). -/
def get_all_for_user (db : DB) (owner_id : Int) (status : Option TaskStatus) :
    List TaskDTO :=
  let base := db.tasks.filter (fun r => r.owner_id == owner_id)
  let rows :=
    match status with
    | none => base
    | some s => if s.py_truthy then base.filter (fun r => r.status == s) else base
  rows.map _get_dto

/-- Embeds TaskRepository.update.  The statement writes every key of
dto.model_dump(), which dumps all three fields of TaskUpdate, absent ones
as None; it is filtered by id and owner_id and returns the updated row.
Writing None into the NOT NULL title or status column violates a constraint
at execution, before the commit, leaving the store unchanged.  When no row
matches the filter, the commit is a no-op and TaskNotFound is raised. -/
def update (db : DB) (task_id : Int) (user_id : Int) (dto : TaskUpdate) :
    Except PyExc TaskDTO × DB :=
  match db.tasks.find? (fun r => r.id == task_id && r.owner_id == user_id) with
  | none => (.error .taskNotFound, db)
  | some r =>
    match dto.title, dto.status with
    | some newTitle, some newStatus =>
      let r' : TaskModel :=
        { r with title := newTitle, description := dto.description, status := newStatus }
      let db' : DB :=
        { db with
          tasks := db.tasks.map (fun x =>
            if x.id == task_id && x.owner_id == user_id then
              { x with title := newTitle, description := dto.description,
                       status := newStatus }
            else x) }
      (.ok (_get_dto r'), db')
    | _, _ => (.error .integrityError, db)

/-- Embeds TaskRepository.delete: removes the rows matching both id and
owner_id; deleting nothing is not an error. -/
def delete (db : DB) (task_id : Int) (user_id : Int) : Except PyExc Unit × DB :=
  (.ok (),
   { db with tasks := db.tasks.filter (fun r => !(r.id == task_id && r.owner_id == user_id)) })

end TaskRepository

/-- A positional argument at a call of a TaskRepository method. -/
inductive TaskCallArg where
  | intArg (i : Int)
  | updArg (d : TaskUpdate)
  deriving DecidableEq, Repr

namespace TaskRepository

/-- Embeds the Python call semantics of TaskRepository.update, whose def
line binds the three positional parameters task_id, user_id and dto: a call
supplying only two positional arguments raises TypeError before the method
body runs. -/
def update_call (db : DB) (args : List TaskCallArg) : Except PyExc TaskDTO × DB :=
  match args with
  | [.intArg task_id, .intArg user_id, .updArg dto] => update db task_id user_id dto
  | [_, _] =>
    (.error (.typeError "update() missing 1 required positional argument: dto"), db)
  | _ =>
    (.error (.typeError "update() called with an unsupported argument list"), db)

/-- Embeds the Python call semantics of TaskRepository.delete, whose def
line binds the two positional parameters task_id and user_id: a call
supplying only one positional argument raises TypeError before the method
body runs. -/
def delete_call (db : DB) (args : List TaskCallArg) : Except PyExc Unit × DB :=
  match args with
  | [.intArg task_id, .intArg user_id] => delete db task_id user_id
  | [_] =>
    (.error (.typeError "delete() missing 1 required positional argument: user_id"), db)
  | _ =>
    (.error (.typeError "delete() called with an unsupported argument list"), db)

end TaskRepository

namespace UserRepository

/-- Embeds UserRepository._get_dto. -/
def _get_dto (u : UserModel) : UserDTO :=
  { id := u.id, username := u.username, email := u.email,
    hashed_password := u.hashed_password }

/-- Embeds UserRepository.create: the commit enforces the unique constraints
on username and email; an IntegrityError is caught, the session rolled back
(leaving the store unchanged), and UserAlreadyExists raised.  On success the
store assigns the next primary key. -/
def create (db : DB) (user : UserEntity) : Except PyExc UserDTO × DB :=
  if db.users.any (fun u => u.username == user.username || u.email == user.email) then
    (.error .userAlreadyExists, db)
  else
    let row : UserModel :=
      { id := db.next_user_id, username := user.username, email := user.email,
        hashed_password := user.hashed_password }
    (.ok (_get_dto row),
     { db with users := db.users ++ [row], next_user_id := db.next_user_id + 1 })

/-- Embeds UserRepository.find: filter_by over the fields of the dump with
None excluded, then scalar_one_or_none, raising UserNotFound (with no
arguments) on no match and MultipleResultsFound on several. -/
def find (db : DB) (dto : UserFindDTO) : Except PyExc UserDTO :=
  let ms := db.users.filter (fun u =>
    (dto.id.all (fun i => u.id == i)) &&
    (dto.username.all (fun n => u.username == n)) &&
    (dto.email.all (fun e => u.email == e)))
  match ms with
  | [] => .error (.userNotFound [])
  | [u] => .ok (_get_dto u)
  | _ => .error .multipleResultsFound

/-- Embeds UserRepository.get_list: OFFSET then LIMIT over the users table;
passing None for either clause leaves it out. -/
def get_list (db : DB) (limit : Option Int) (offset : Option Int) : List UserDTO :=
  let afterOffset :=
    match offset with
    | none => db.users
    | some o => db.users.drop o.toNat
  let taken :=
    match limit with
    | none => afterOffset
    | some l => afterOffset.take l.toNat
  taken.map _get_dto

/-- Embeds UserUpdate.model_dump(exclude_none=True): the dump contains one
entry per field that was provided, keyed by the field name; a provided
password appears under the key password, unmodified. -/
def dump_exclude_none (dto : UserUpdate) : List (String × String) :=
  (match dto.username with | some v => [("username", v)] | none => []) ++
  (match dto.email with | some v => [("email", v)] | none => []) ++
  (match dto.password with | some v => [("password", v)] | none => [])

/-- The users table after the UPDATE statement writes the provided username
and email columns of every row whose id matches. -/
def updatedUsers (db : DB) (pk : Int) (dto : UserUpdate) : List UserModel :=
  db.users.map (fun v =>
    if v.id == pk then
      { v with username := dto.username.getD v.username,
               email := dto.email.getD v.email }
    else v)

/-- Embeds UserRepository.update.  Building values(**dump) rejects any key
that is not a users table column (the password key has no column) before the
statement executes; an empty dump is likewise rejected at compile time of
the statement.  Otherwise the matched rows get their named columns written,
the unique constraints are enforced at execution, and the commit happens
before the returned row is inspected, so UserNotFound or
MultipleResultsFound are raised only after the store has been updated. -/
def update (db : DB) (pk : Int) (dto : UserUpdate) : Except PyExc UserDTO × DB :=
  if (dump_exclude_none dto).any (fun kv => !(UserModel.columns.contains kv.1)) then
    (.error (.argumentError "Unconsumed column names: password"), db)
  else if (dump_exclude_none dto).isEmpty then
    (.error (.argumentError "UPDATE statement has no values"), db)
  else if db.users.any (fun v =>
      decide (v.id ≠ pk) &&
      ((dto.username.any (fun n => v.username == n)) ||
       (dto.email.any (fun e => v.email == e)))) then
    (.error .integrityError, db)
  else
    match (updatedUsers db pk dto).filter (fun v => v.id == pk) with
    | [] => (.error (.userNotFound []), { db with users := updatedUsers db pk dto })
    | [r] => (.ok (_get_dto r), { db with users := updatedUsers db pk dto })
    | _ => (.error .multipleResultsFound, { db with users := updatedUsers db pk dto })

end UserRepository

namespace UserService

/-- Embeds UserService.create_user: hashes the password, builds the entity
and delegates to the repository. -/
def create_user (db : DB) (dto : UserCreate) : Except PyExc UserDTO × DB :=
  let hashed := PasswordService.get_password_hash dto.password
  UserRepository.create db
    { id := none, username := dto.username, email := dto.email,
      hashed_password := hashed }

/-- Embeds UserService.get_all_users: a negative limit or offset raises
PaginationError before the repository is consulted; otherwise the call
delegates to get_list.  The boolean of the result records whether storage
was accessed. -/
def get_all_users (db : DB) (limit : Option Int) (offset : Option Int) :
    Except PyExc (List UserDTO) × Bool :=
  if (limit.any (fun l => decide (l < 0))) || (offset.any (fun o => decide (o < 0))) then
    (.error .paginationError, false)
  else
    (.ok (UserRepository.get_list db limit offset), true)

/-- Embeds UserService.find_user. -/
def find_user (db : DB) (dto : UserFindDTO) : Except PyExc UserDTO :=
  UserRepository.find db dto

/-- Embeds UserService.update_user: the DTO is forwarded to the repository
unchanged; in particular no password hashing happens here. -/
def update_user (db : DB) (pk : Int) (dto : UserUpdate) : Except PyExc UserDTO × DB :=
  UserRepository.update db pk dto

end UserService

namespace TaskService

/-- Embeds TaskService._get_and_verify: fetches the task by id (the
repository raises TaskNotFound when absent) and raises TaskAccessForbidden
when the owner differs from the requesting user. -/
def _get_and_verify (db : DB) (task_id : Int) (user_id : Int) : Except PyExc TaskDTO :=
  match TaskRepository.get_by_id db task_id with
  | .error e => .error e
  | .ok task => if task.owner_id != user_id then .error .taskAccessForbidden else .ok task

/-- Embeds TaskService.get_tasks_for_user. -/
def get_tasks_for_user (db : DB) (user_id : Int) (status : Option TaskStatus) :
    List TaskDTO :=
  TaskRepository.get_all_for_user db user_id status

/-- Embeds TaskService.get_task_by_id_for_user. -/
def get_task_by_id_for_user (db : DB) (task_id : Int) (user_id : Int) :
    Except PyExc TaskDTO :=
  _get_and_verify db task_id user_id

/-- Embeds TaskService.update_task: verifies ownership first, then calls
repo.update with exactly the two positional arguments the source passes,
task_id and the update DTO. -/
def update_task (db : DB) (task_id : Int) (task_update : TaskUpdate) (user_id : Int) :
    Except PyExc TaskDTO × DB :=
  match _get_and_verify db task_id user_id with
  | .error e => (.error e, db)
  | .ok _ => TaskRepository.update_call db [.intArg task_id, .updArg task_update]

/-- Embeds TaskService.delete_task: verifies ownership first, then calls
repo.delete with exactly the one positional argument the source passes,
task_id. -/
def delete_task (db : DB) (task_id : Int) (user_id : Int) : Except PyExc Unit × DB :=
  match _get_and_verify db task_id user_id with
  | .error e => (.error e, db)
  | .ok _ => TaskRepository.delete_call db [.intArg task_id]

end TaskService

namespace AuthService

/-- Embeds AuthService.register: builds a UserCreate from the registration
data, creates the user through the user service, and issues both tokens for
the new user id. -/
def register (db : DB) (now : Int) (dto : RegistrationDTO) : Except PyExc TokenDTO × DB :=
  match UserService.create_user db
      { username := dto.username, email := dto.email, password := dto.password } with
  | (.error e, db') => (.error e, db')
  | (.ok new_user, db') =>
    let access := TokenService.create_access_token [("sub", .str (toString new_user.id))] now
    let refresh := TokenService.create_refresh_token [("sub", .str (toString new_user.id))] now
    (.ok { access_token := access, refresh_token := refresh, token_type := "bearer" }, db')

/-- Embeds AuthService.login: finds the user by username (the repository
raises a bare UserNotFound when no row matches); a failed password check
raises UserNotFound with the message Incorrect username or password; on
success both tokens are issued. -/
def login (db : DB) (now : Int) (dto : LoginDTO) : Except PyExc TokenDTO :=
  match UserService.find_user db { id := none, username := some dto.username, email := none } with
  | .error e => .error e
  | .ok user =>
    if !(PasswordService.verify_password dto.password user.hashed_password) then
      .error (.userNotFound ["Incorrect username or password"])
    else
      let access := TokenService.create_access_token [("sub", .str (toString user.id))] now
      let refresh := TokenService.create_refresh_token [("sub", .str (toString user.id))] now
      .ok { access_token := access, refresh_token := refresh, token_type := "bearer" }

end AuthService

/-- The methods defined in the class body of AuthService in
backend.auth.service: register and login are the only ones. -/
inductive AuthServiceAttr where
  | register
  | login
  deriving DecidableEq, Repr

/-- Embeds Python attribute lookup on an AuthService instance, restricted to
the methods its class body defines. -/
def AuthService.getattr : String → Option AuthServiceAttr
  | "register" => some .register
  | "login" => some .login
  | _ => none

/-- The outcome of a route handler: a token response, an HTTPException the
handler raised deliberately, or an exception that escaped the handler. -/
inductive HttpResult where
  | success (t : TokenDTO)
  | httpError (code : Int) (detail : String)
  | uncaught (e : PyExc)
  deriving DecidableEq, Repr

namespace authRouter

/-- Embeds the login endpoint of backend.auth.router: a UserNotFound raised
by the service is caught and mapped to a 401 with a fixed detail message;
any other exception escapes the handler. -/
def login (db : DB) (now : Int) (dto : LoginDTO) : HttpResult :=
  match AuthService.login db now dto with
  | .ok t => .success t
  | .error (.userNotFound _) => .httpError 401 "Incorrect username or password"
  | .error e => .uncaught e

/-- Embeds the refresh endpoint of backend.auth.router: the handler calls
service.refresh_tokens(refresh_token).  The attribute lookup is resolved
against the class body of AuthService; when it misses, the call raises
AttributeError, which the except clause (catching only UserNotFound) does
not intercept.  The branch in which the attribute resolves is unreachable,
because the class body defines no refresh_tokens; it is kept total by
reporting the type mismatch a one-token call of either defined method would
produce. -/
def refresh (db : DB) (refresh_token : Token) : HttpResult :=
  match AuthService.getattr "refresh_tokens" with
  | none =>
    .uncaught (.attributeError "AuthService object has no attribute refresh_tokens")
  | some _ =>
    .uncaught (.typeError "AuthService method called with a token argument")

end authRouter

/-- Every TaskStatus member is truthy, because the str enum values are all
nonempty strings. -/
theorem TaskStatus.py_truthy_eq_true (s : TaskStatus) : s.py_truthy = true := by
  cases s <;> rfl

/-- C2: the claim says the Auth Service provides a refresh operation that
verifies the refresh token and issues a fresh pair.  The class body of
AuthService defines only register and login, so the attribute lookup the
refresh endpoint performs misses and every refresh request dies with an
uncaught AttributeError instead of completing a refresh. -/
theorem auth_refresh_endpoint_attribute_error :
    ∀ (db : DB) (tok : Token),
      AuthService.getattr "refresh_tokens" = none
      ∧ authRouter.refresh db tok =
          .uncaught (.attributeError "AuthService object has no attribute refresh_tokens") := by
  intro db tok
  exact ⟨rfl, rfl⟩

/-- C8: UserService.get_all_users raises PaginationError and performs no
storage access whenever limit or offset is negative, and otherwise delegates
to the repository list; in particular the spec scenario limit = -1 and
offset = 0 fails without touching storage. -/
theorem userservice_pagination_validation :
    ∀ (db : DB) (limit offset : Option Int),
      UserService.get_all_users db limit offset =
        (if (limit.any fun l => decide (l < 0)) || (offset.any fun o => decide (o < 0)) then
          (.error .paginationError, false)
        else (.ok (UserRepository.get_list db limit offset), true))
      ∧ UserService.get_all_users db (some (-1)) (some 0) = (.error .paginationError, false) := by
  intro db limit offset
  exact ⟨rfl, rfl⟩

/-- C1: for a stored task t and any user B other than its owner, get, update
and delete through the task service all fail with TaskAccessForbidden, an
outcome distinct from TaskNotFound, and the store is unchanged by the
attempted mutations. -/
theorem taskservice_ownership_gating
    (db : DB) (t : TaskModel) (B : Int) (upd : TaskUpdate)
    (hfind : db.tasks.find? (fun r => r.id == t.id) = some t)
    (hB : t.owner_id ≠ B) :
    TaskService.get_task_by_id_for_user db t.id B = .error .taskAccessForbidden
    ∧ TaskService.update_task db t.id upd B = (.error .taskAccessForbidden, db)
    ∧ TaskService.delete_task db t.id B = (.error .taskAccessForbidden, db)
    ∧ PyExc.taskAccessForbidden ≠ PyExc.taskNotFound := by
  have hbne : ((TaskRepository._get_dto t).owner_id != B) = true := by
    simpa [TaskRepository._get_dto, bne_iff_ne] using hB
  have hv : TaskService._get_and_verify db t.id B = .error .taskAccessForbidden := by
    unfold TaskService._get_and_verify TaskRepository.get_by_id TaskRepository.find_by_id
    rw [hfind]
    simp [hbne]
  refine ⟨?_, ?_, ?_, by simp⟩
  · unfold TaskService.get_task_by_id_for_user
    exact hv
  · unfold TaskService.update_task
    rw [hv]
  · unfold TaskService.delete_task
    rw [hv]

/-- A one-task store owned by user 7, used to instantiate the ownership and
arity theorems at concrete inputs. -/
def wTask : TaskModel :=
  { id := 1, title := "Buy milk", description := none, status := .PENDING, owner_id := 7 }

/-- A store holding exactly wTask. -/
def wdb : DB := { users := [], tasks := [wTask], next_user_id := 1 }

/-- A partial update payload supplying only a new title. -/
def wupd : TaskUpdate := { title := some "changed", description := none, status := none }

/-- C1 witness: user 8 is denied get, update and delete on the task of user
7, and the store is unchanged. -/
theorem taskservice_ownership_gating_witness :
    TaskService.get_task_by_id_for_user wdb 1 8 = .error .taskAccessForbidden
    ∧ TaskService.update_task wdb 1 wupd 8 = (.error .taskAccessForbidden, wdb)
    ∧ TaskService.delete_task wdb 1 8 = (.error .taskAccessForbidden, wdb)
    ∧ PyExc.taskAccessForbidden ≠ PyExc.taskNotFound :=
  taskservice_ownership_gating wdb wTask 8 wupd rfl (by decide)

/-- C4: once the ownership check passes, TaskService.update_task calls
repo.update with two positional arguments where the repository signature
demands task_id, user_id and dto, and TaskService.delete_task calls
repo.delete with one argument where it demands task_id and user_id, so both
operations raise TypeError and leave the store unchanged. -/
theorem taskservice_update_delete_arity_bug
    (db : DB) (t : TaskModel) (upd : TaskUpdate)
    (hfind : db.tasks.find? (fun r => r.id == t.id) = some t) :
    TaskService.update_task db t.id upd t.owner_id =
      (.error (.typeError "update() missing 1 required positional argument: dto"), db)
    ∧ TaskService.delete_task db t.id t.owner_id =
      (.error (.typeError "delete() missing 1 required positional argument: user_id"), db) := by
  have hv : TaskService._get_and_verify db t.id t.owner_id = .ok (TaskRepository._get_dto t) := by
    unfold TaskService._get_and_verify TaskRepository.get_by_id TaskRepository.find_by_id
    rw [hfind]
    simp [TaskRepository._get_dto]
  constructor
  · unfold TaskService.update_task
    rw [hv]
    rfl
  · unfold TaskService.delete_task
    rw [hv]
    rfl

/-- C4 witness: the owner, user 7, attempts the update and the delete and
both die with the missing-argument TypeError. -/
theorem taskservice_update_delete_arity_bug_witness :
    TaskService.update_task wdb 1 wupd 7 =
      (.error (.typeError "update() missing 1 required positional argument: dto"), wdb)
    ∧ TaskService.delete_task wdb 1 7 =
      (.error (.typeError "delete() missing 1 required positional argument: user_id"), wdb) :=
  taskservice_update_delete_arity_bug wdb wTask wupd rfl

/-- C9: listing tasks for an owner with a status filter returns exactly the
tasks whose owner_id and status both match: the result is the filtered
projection of the tasks table, membership is all-and-only matches, and an
empty match set yields the empty list rather than an error. -/
theorem taskservice_status_filter_exact :
    ∀ (db : DB) (owner : Int) (s : TaskStatus),
      TaskService.get_tasks_for_user db owner (some s) =
        (db.tasks.filter (fun r => r.owner_id == owner && r.status == s)).map
          TaskRepository._get_dto
      ∧ (∀ t, t ∈ TaskService.get_tasks_for_user db owner (some s) ↔
          ∃ r ∈ db.tasks, r.owner_id = owner ∧ r.status = s ∧ t = TaskRepository._get_dto r)
      ∧ (db.tasks.filter (fun r => r.owner_id == owner && r.status == s) = [] →
          TaskService.get_tasks_for_user db owner (some s) = []) := by
  intro db owner s
  have hmain : TaskService.get_tasks_for_user db owner (some s) =
      (db.tasks.filter (fun r => r.owner_id == owner && r.status == s)).map
        TaskRepository._get_dto := by
    unfold TaskService.get_tasks_for_user TaskRepository.get_all_for_user
    simp only [TaskStatus.py_truthy_eq_true, if_true, List.filter_filter]
    congr 1
    apply List.filter_congr
    intro r hr
    exact Bool.and_comm _ _
  refine ⟨hmain, ?_, ?_⟩
  · intro t
    rw [hmain]
    simp only [List.mem_map, List.mem_filter, Bool.and_eq_true, beq_iff_eq]
    constructor
    · rintro ⟨r, ⟨hmem, howner, hstatus⟩, hdto⟩
      exact ⟨r, hmem, howner, hstatus, hdto.symm⟩
    · rintro ⟨r, hmem, howner, hstatus, hdto⟩
      exact ⟨r, ⟨hmem, howner, hstatus⟩, hdto.symm⟩
  · intro hempty
    rw [hmain, hempty]
    rfl

/-- C9 witness: for a store whose only task is PENDING and owned by user 7,
the DONE filter for user 7 selects nothing, so the listing is empty and not
an error. -/
theorem taskservice_status_filter_exact_witness :
    TaskService.get_tasks_for_user wdb 7 (some .DONE) = [] :=
  (taskservice_status_filter_exact wdb 7 .DONE).2.2 rfl

/-- C7: registering while some stored user already holds the requested
username fails with UserAlreadyExists and returns the store unchanged, so no
partial user record persists. -/
theorem register_duplicate_username_atomic
    (db : DB) (now : Int) (dto : RegistrationDTO) (u : UserModel)
    (hu : u ∈ db.users) (hname : u.username = dto.username) :
    AuthService.register db now dto = (.error .userAlreadyExists, db) := by
  have hany : (db.users.any fun v =>
      v.username == dto.username || v.email == dto.email) = true := by
    refine List.any_eq_true.mpr ⟨u, hu, ?_⟩
    simp [hname]
  unfold AuthService.register UserService.create_user UserRepository.create
  simp [hany]

/-- A store already holding the user alice, for the duplicate-registration
witness. -/
def aliceRow : UserModel :=
  { id := 1, username := "alice", email := "alice@x.com",
    hashed_password := PasswordService.get_password_hash "password123" }

/-- A one-user store holding aliceRow. -/
def aliceDb : DB := { users := [aliceRow], tasks := [], next_user_id := 2 }

/-- C7 witness: re-registering the username alice under a fresh email fails
with UserAlreadyExists and the store keeps exactly its single user row. -/
theorem register_duplicate_username_atomic_witness :
    AuthService.register aliceDb 0
      { username := "alice", email := "other@x.com", password := "password456" } =
      (.error .userAlreadyExists, aliceDb) :=
  register_duplicate_username_atomic aliceDb 0
    { username := "alice", email := "other@x.com", password := "password456" }
    aliceRow (by simp [aliceDb]) rfl

/-- The stored task used to exhibit the partial-update defect: it carries a
description worth preserving. -/
def descTask : TaskModel :=
  { id := 1, title := "Buy milk", description := some "two liters",
    status := .PENDING, owner_id := 7 }

/-- A store holding exactly descTask. -/
def descDb : DB := { users := [], tasks := [descTask], next_user_id := 1 }

/-- A payload providing title and status but leaving description absent. -/
def titleStatusUpd : TaskUpdate :=
  { title := some "Buy oat milk", description := none, status := some .DONE }

/-- C3: the claim says fields absent from the payload keep their previous
value.  TaskRepository.update dumps the payload without excluding unset
fields, so the absent description is written as NULL: updating only title
and status erases the stored description two liters. -/
theorem task_update_overwrites_absent_fields :
    (TaskRepository.update descDb 1 7 titleStatusUpd).1 =
      .ok { id := 1, title := "Buy oat milk", description := none,
            status := .DONE, owner_id := 7 }
    ∧ ((TaskRepository.update descDb 1 7 titleStatusUpd).2.tasks.find?
        (fun r => r.id == 1)).map TaskModel.description = some none
    ∧ descTask.description = some "two liters" := by
  exact ⟨rfl, rfl, rfl⟩

/-- Whatever branch UserRepository.update takes, the id and hashed_password
of every stored user row are unchanged: the statement can only write the
username and email columns, and every error branch leaves the store as it
was. -/
theorem UserRepository.update_preserves_hashed (db : DB) (pk : Int) (dto : UserUpdate) :
    ((UserRepository.update db pk dto).2.users.map fun u => (u.id, u.hashed_password))
      = db.users.map fun u => (u.id, u.hashed_password) := by
  have hmap : ((UserRepository.updatedUsers db pk dto).map fun u => (u.id, u.hashed_password))
      = db.users.map fun u => (u.id, u.hashed_password) := by
    unfold UserRepository.updatedUsers
    rw [List.map_map]
    apply List.map_congr_left
    intro u hu
    by_cases hid : (u.id == pk) = true <;> simp [Function.comp, hid]
  unfold UserRepository.update
  by_cases h1 : ((UserRepository.dump_exclude_none dto).any
      fun kv => !(UserModel.columns.contains kv.1)) = true
  · rw [if_pos h1]
  · rw [if_neg h1]
    by_cases h2 : (UserRepository.dump_exclude_none dto).isEmpty = true
    · rw [if_pos h2]
    · rw [if_neg h2]
      by_cases h3 : (db.users.any fun v =>
          decide (v.id ≠ pk) &&
          ((dto.username.any fun n => v.username == n) ||
           (dto.email.any fun e => v.email == e))) = true
      · rw [if_pos h3]
      · rw [if_neg h3]
        cases hfilter : (UserRepository.updatedUsers db pk dto).filter (fun v => v.id == pk) with
        | nil => exact hmap
        | cons r rest =>
          cases rest with
          | nil => exact hmap
          | cons r2 rest2 => exact hmap

/-- C10: a password supplied to the user update flows to storage as
plaintext under the key password (the lookup of that key in the dump is
exactly the optional password field, unhashed), the users table has no
password column but only hashed_password, every stored hashed_password
survives any update unchanged, and an update that does supply a password
fails on the unknown column.  A password therefore can never be changed
through UserService.update_user. -/
theorem userservice_update_never_changes_password :
    ∀ (db : DB) (pk : Int) (dto : UserUpdate),
      List.lookup "password" (UserRepository.dump_exclude_none dto) = dto.password
      ∧ UserModel.columns.contains "password" = false
      ∧ UserModel.columns.contains "hashed_password" = true
      ∧ ((UserService.update_user db pk dto).2.users.map fun u => (u.id, u.hashed_password))
          = (db.users.map fun u => (u.id, u.hashed_password))
      ∧ (∀ p, dto.password = some p →
          (UserService.update_user db pk dto).1 =
            .error (.argumentError "Unconsumed column names: password")) := by
  intro db pk dto
  refine ⟨?_, rfl, rfl, UserRepository.update_preserves_hashed db pk dto, ?_⟩
  · rcases dto with ⟨u, e, p⟩
    cases u <;> cases e <;> cases p <;> rfl
  · intro p hp
    have hmem : ("password", p) ∈ UserRepository.dump_exclude_none dto := by
      unfold UserRepository.dump_exclude_none
      rw [hp]
      simp
    have hval : (!(UserModel.columns.contains "password")) = true := by rfl
    have hany : ((UserRepository.dump_exclude_none dto).any
        fun kv => !(UserModel.columns.contains kv.1)) = true :=
      List.any_eq_true.mpr ⟨("password", p), hmem, hval⟩
    unfold UserService.update_user UserRepository.update
    rw [if_pos hany]

/-- C10 witness: an update of user 1 that supplies a new password fails on
the unknown password column, and the stored hashed_password of alice is
untouched. -/
theorem userservice_update_never_changes_password_witness :
    (UserService.update_user aliceDb 1
        { username := none, email := none, password := some "newpassword1" }).1 =
      .error (.argumentError "Unconsumed column names: password")
    ∧ ((UserService.update_user aliceDb 1
        { username := none, email := none, password := some "newpassword1" }).2.users.map
          fun u => (u.id, u.hashed_password))
        = (aliceDb.users.map fun u => (u.id, u.hashed_password)) :=
  ⟨(userservice_update_never_changes_password aliceDb 1
      { username := none, email := none, password := some "newpassword1" }).2.2.2.2
      "newpassword1" rfl,
   (userservice_update_never_changes_password aliceDb 1
      { username := none, email := none, password := some "newpassword1" }).2.2.2.1⟩

/-- C5 counterexample: on a store holding only alice, a login with the right
username and a wrong password and a login with an unknown username both
raise UserNotFound, but the raised values differ: the first carries the
message Incorrect username or password, the second carries no arguments, so
the two failure outcomes are not the same and a caller of the service can
tell them apart. -/
theorem login_error_outcomes_distinguishable :
    AuthService.login aliceDb 0 { username := "alice", password := "wrongpass" } =
      .error (.userNotFound ["Incorrect username or password"])
    ∧ AuthService.login aliceDb 0 { username := "bob", password := "password123" } =
      .error (.userNotFound [])
    ∧ AuthService.login aliceDb 0 { username := "alice", password := "wrongpass" } ≠
      AuthService.login aliceDb 0 { username := "bob", password := "password123" } := by
  have h1 : AuthService.login aliceDb 0 { username := "alice", password := "wrongpass" } =
      .error (.userNotFound ["Incorrect username or password"]) := by rfl
  have h2 : AuthService.login aliceDb 0 { username := "bob", password := "password123" } =
      .error (.userNotFound []) := by rfl
  refine ⟨h1, h2, ?_⟩
  rw [h1, h2]
  intro h
  injection h with harg
  exact absurd harg (by decide)

/-- C5 amended: both failures raise an exception of the same Python type,
UserNotFound; the wrong-password case carries the message Incorrect username
or password while the unknown-username case carries no arguments, and the
login endpoint maps both to the identical 401 response, so the route-level
error shapes coincide even though the service-level values differ. -/
theorem login_failure_shapes
    (db : DB) (now : Int) (u : UserModel) (wrongdto nodto : LoginDTO)
    (hone : db.users.filter (fun v => v.username == wrongdto.username) = [u])
    (hwrong : PasswordService.verify_password wrongdto.password u.hashed_password = false)
    (hnone : db.users.filter (fun v => v.username == nodto.username) = []) :
    AuthService.login db now wrongdto = .error (.userNotFound ["Incorrect username or password"])
    ∧ AuthService.login db now nodto = .error (.userNotFound [])
    ∧ PyExc.typeName (.userNotFound ["Incorrect username or password"])
        = PyExc.typeName (.userNotFound [])
    ∧ authRouter.login db now wrongdto = .httpError 401 "Incorrect username or password"
    ∧ authRouter.login db now nodto = .httpError 401 "Incorrect username or password" := by
  have hfix : ∀ w : String, db.users.filter (fun v =>
      ((none : Option Int).all fun i => v.id == i) &&
      ((some w).all fun n => v.username == n) &&
      ((none : Option String).all fun e => v.email == e)) =
      db.users.filter (fun v => v.username == w) := by
    intro w
    apply List.filter_congr
    intro v hv
    simp [Option.all]
  have h1 : AuthService.login db now wrongdto =
      .error (.userNotFound ["Incorrect username or password"]) := by
    unfold AuthService.login UserService.find_user UserRepository.find
    dsimp only
    rw [hfix wrongdto.username, hone]
    simp [UserRepository._get_dto, hwrong]
  have h2 : AuthService.login db now nodto = .error (.userNotFound []) := by
    unfold AuthService.login UserService.find_user UserRepository.find
    dsimp only
    rw [hfix nodto.username, hnone]
  refine ⟨h1, h2, rfl, ?_, ?_⟩
  · unfold authRouter.login
    rw [h1]
  · unfold authRouter.login
    rw [h2]

/-- C5 amended witness: instantiated on the one-user store of alice, with
the wrong-password attempt for alice and the unknown-username attempt for
bob. -/
theorem login_failure_shapes_witness :
    AuthService.login aliceDb 0 { username := "alice", password := "wrongpass" } =
      .error (.userNotFound ["Incorrect username or password"])
    ∧ AuthService.login aliceDb 0 { username := "bob", password := "password123" } =
      .error (.userNotFound [])
    ∧ PyExc.typeName (.userNotFound ["Incorrect username or password"])
        = PyExc.typeName (.userNotFound [])
    ∧ authRouter.login aliceDb 0 { username := "alice", password := "wrongpass" } =
      .httpError 401 "Incorrect username or password"
    ∧ authRouter.login aliceDb 0 { username := "bob", password := "password123" } =
      .httpError 401 "Incorrect username or password" :=
  login_failure_shapes aliceDb 0 aliceRow
    { username := "alice", password := "wrongpass" }
    { username := "bob", password := "password123" }
    (by decide) (by decide) (by decide)

/-- Marks the tokens the no-exception guarantee quantifies over: every
structurally malformed string, every token signed under a key other than the
server secret (all an attacker can craft without the secret), and every
token whose sub claim is absent, None, or a string, which covers every token
this service issues, since both issuance paths bind sub to str(user.id). -/
def Token.attacker_reachable : Token → Bool
  | .malformedTok _ => true
  | .signedTok claims k _ =>
    k != auth_config.secret_key ||
    (match lookupClaim claims "sub" with
     | some (.int _) => false
     | _ => true)

/-- Validating a claims dict whose sub is not an int always yields a payload
rather than a pydantic error. -/
theorem from_claims_ok_of_sub_not_int (claims : List (String × PyVal))
    (hsub : (match lookupClaim claims "sub" with
      | some (.int _) => false
      | _ => true) = true) :
    ∃ p, TokenPayloadDTO.from_claims claims = .ok p := by
  unfold TokenPayloadDTO.from_claims
  cases hsubv : lookupClaim claims "sub" with
  | none => exact ⟨⟨none⟩, rfl⟩
  | some v =>
    cases v with
    | str s => exact ⟨⟨some s⟩, rfl⟩
    | pynone => exact ⟨⟨none⟩, rfl⟩
    | int i => rw [hsubv] at hsub; simp at hsub

/-- C6: on every attacker-reachable or service-issued token, verify_token
returns either a decoded payload or the typed invalid signal None and never
an escaping exception; in particular a malformed token, a token signed under
the wrong key, and an expired token all verify to None. -/
theorem verify_token_total_or_invalid
    (t : Token) (now : Int)
    (h : t.attacker_reachable = true) :
    (∃ r : Option TokenPayloadDTO, TokenService.verify_token t now = .ok r)
    ∧ (∀ raw, t = .malformedTok raw → TokenService.verify_token t now = .ok none)
    ∧ (∀ claims k a, t = .signedTok claims k a → k ≠ auth_config.secret_key →
        TokenService.verify_token t now = .ok none)
    ∧ (∀ claims a e, t = .signedTok claims auth_config.secret_key a →
        lookupClaim claims "exp" = some (.int e) → e ≤ now →
        TokenService.verify_token t now = .ok none) := by
  refine ⟨?_, ?_, ?_, ?_⟩
  · cases t with
    | malformedTok raw => exact ⟨none, rfl⟩
    | signedTok claims k a =>
      by_cases hk : k = auth_config.secret_key
      · subst hk
        have hsub : (match lookupClaim claims "sub" with
            | some (.int _) => false
            | _ => true) = true := by
          simpa [Token.attacker_reachable] using h
        by_cases hc : a = auth_config.algorithm
        · cases hexp : lookupClaim claims "exp" with
          | none =>
            obtain ⟨p, hp⟩ := from_claims_ok_of_sub_not_int claims hsub
            exact ⟨some p, by simp [TokenService.verify_token, jwt.decode, hc, hexp, hp]⟩
          | some v =>
            cases v with
            | int e =>
              by_cases hle : e ≤ now
              · exact ⟨none, by simp [TokenService.verify_token, jwt.decode, hc, hexp, hle]⟩
              · obtain ⟨p, hp⟩ := from_claims_ok_of_sub_not_int claims hsub
                exact ⟨some p,
                  by simp [TokenService.verify_token, jwt.decode, hc, hexp, hle, hp]⟩
            | str s =>
              exact ⟨none, by simp [TokenService.verify_token, jwt.decode, hc, hexp]⟩
            | pynone =>
              exact ⟨none, by simp [TokenService.verify_token, jwt.decode, hc, hexp]⟩
        · exact ⟨none, by simp [TokenService.verify_token, jwt.decode, hc]⟩
      · exact ⟨none, by simp [TokenService.verify_token, jwt.decode, bne_iff_ne, hk]⟩
  · intro raw heq
    subst heq
    rfl
  · intro claims k a heq hk
    subst heq
    by_cases hc : a = auth_config.algorithm
    · simp [TokenService.verify_token, jwt.decode, hc, bne_iff_ne, hk]
    · simp [TokenService.verify_token, jwt.decode, hc]
  · intro claims a e heq hexp hle
    subst heq
    by_cases hc : a = auth_config.algorithm
    · simp [TokenService.verify_token, jwt.decode, hc, hexp, hle]
    · simp [TokenService.verify_token, jwt.decode, hc]

/-- C6 witness: a malformed token string is attacker reachable and verifies
to the invalid signal None, and an expired token issued under the server
secret also verifies to None. -/
theorem verify_token_total_or_invalid_witness :
    Token.attacker_reachable (.malformedTok "not a jwt") = true
    ∧ TokenService.verify_token (.malformedTok "not a jwt") 0 = .ok none
    ∧ TokenService.verify_token
        (TokenService.create_access_token [("sub", .str "1")] 0) 100000 = .ok none :=
  ⟨rfl,
   (verify_token_total_or_invalid (.malformedTok "not a jwt") 0 rfl).2.1 "not a jwt" rfl,
   (verify_token_total_or_invalid
      (TokenService.create_access_token [("sub", .str "1")] 0) 100000 rfl).2.2.2
      [("sub", PyVal.str "1"), ("exp", PyVal.int 1800)] auth_config.algorithm 1800
      rfl rfl (by decide)⟩
